import Mathlib

set_option maxRecDepth 100000

/-!
# Verification of the VeritasChain score-aggregation pipeline

Shallow embedding of the VeritasChain repository (files `veritas_agent.py`,
`blockchain_analyzer.py`, `web_scraper.py`, `Main.py`) and proofs of the
specification claims about its score aggregation and evidence-fusion pipeline.

The Python code computes the final weighted score with IEEE-754 binary64
("double") arithmetic: `int(on_chain["score"] * 0.6 + off_chain["score"] * 0.4)`.
To keep the embedding faithful we model binary64 values exactly as dyadic
rationals `m * 2^e` with a 53-bit significand, and round-to-nearest / ties-to-even
after every operation, which is exactly what the hardware does for values in
the exponent range that occurs here (no overflow, no subnormals: every value
that occurs lies between `0.4` and `100.0`).
-/

namespace VeritasChain

/-! ### Exact model of IEEE-754 binary64 arithmetic on positive values

A `Dub` is a pair `(m, e)` denoting the real number `m * 2^e`.  `rnd`
normalises an arbitrary such pair to a 53-bit significand, rounding to
nearest with ties to even — the binary64 rounding rule. -/

/-- Floor of the base-two logarithm, by fuel (fuel 200 covers every number
below `2^200`, far beyond anything occurring in the pipeline). -/
def lg2 : ℕ → ℕ → ℕ
  | 0, _ => 0
  | fuel + 1, n => if n < 2 then 0 else lg2 fuel (n / 2) + 1

/-- A positive binary64 value, as significand and exponent: the value is
`m * 2^e`.  Not necessarily normalised. -/
abbrev Dub := ℕ × ℤ

/-- Round `n * 2^e` (with `n : ℕ`) to the nearest binary64 value
(53-bit significand), ties to even. -/
def rnd (n : ℕ) (e : ℤ) : Dub :=
  if n = 0 then (0, 0)
  else
    let b := lg2 200 n
    if b ≤ 52 then (n * 2 ^ (52 - b), e - ((52 - b : ℕ) : ℤ))
    else
      let s := b - 52
      let q := n / 2 ^ s
      let r := n % 2 ^ s
      let half := 2 ^ (s - 1)
      let q2 := if half < r then q + 1
                else if r < half then q
                else if q % 2 = 0 then q else q + 1
      if q2 = 2 ^ 53 then (2 ^ 52, e + s + 1) else (q2, e + s)

/-- Binary64 multiplication: exact product, then one rounding. -/
def dmul (a b : Dub) : Dub := rnd (a.1 * b.1) (a.2 + b.2)

/-- Binary64 addition: exact sum (after aligning exponents), then one
rounding. -/
def dadd (a b : Dub) : Dub :=
  let e := min a.2 b.2
  rnd (a.1 * 2 ^ (a.2 - e).toNat + b.1 * 2 ^ (b.2 - e).toNat) e

/-- Python `int(x)` on a non-negative binary64 value: truncation, which for
non-negative values is the floor. -/
def dfloor (d : Dub) : ℕ :=
  if 0 ≤ d.2 then d.1 * 2 ^ d.2.toNat else d.1 / 2 ^ (-d.2).toNat

/-- The binary64 value nearest to the fraction `p / q`, computed with 120
guard bits.  120 guard bits decide every rounding for the fractions used
here (`3/5` and `2/5`): a rounding tie would need the binary expansion of
`p/q` to terminate within 54 bits, which it does not. -/
def ratToDub (p q : ℕ) : Dub := rnd (p * 2 ^ 120 / q) (-120)

/-- A small natural number as a binary64 value (exact for `n < 2^53`). -/
def dub (n : ℕ) : Dub := (n, 0)

/-- The binary64 value of the Python literal `0.6` (the on-chain weight). -/
def d06 : Dub := ratToDub 3 5

/-- The binary64 value of the Python literal `0.4` (the off-chain weight). -/
def d04 : Dub := ratToDub 2 5

/-- The binary64 evaluation of `s1 * 0.6 + s2 * 0.4`, exactly as Python
evaluates it in `_generate_veritas_score`. -/
def weighted_sum_double (s1 s2 : ℕ) : Dub :=
  dadd (dmul (dub s1) d06) (dmul (dub s2) d04)

/-! ### Model of Python values

The evidence normalizer `_serialize_analysis_data` walks arbitrary Python
data.  We model the Python values that can occur as a mutual inductive:
primitives, `None`, `datetime` objects (opaque, not JSON-serializable),
lists, dicts (association lists, preserving Python 3.7+ insertion order),
and objects carrying a `__dict__` (constructor `obj`; in this codebase only
`ContractAnalysis` dataclass instances).  Strings, ints, floats and bools
model themselves; floats are exact binary64 values so a rational carries
them faithfully. -/

mutual
inductive PyVal where
  | str : String → PyVal
  | int : ℤ → PyVal
  | float : ℚ → PyVal
  | bool : Bool → PyVal
  | pynone : PyVal
  | datetime : ℕ → PyVal
  | list : PyList → PyVal
  | dict : PyDict → PyVal
  | obj : PyDict → PyVal

inductive PyList where
  | nil : PyList
  | cons : PyVal → PyList → PyList

inductive PyDict where
  | nil : PyDict
  | cons : String → PyVal → PyDict → PyDict
end

/-- Python `getattr(value, key, default)` on an object's `__dict__`
(first binding wins; Python dict keys are unique anyway). -/
def PyDict.getD (d : PyDict) (k : String) (dflt : PyVal) : PyVal :=
  match d with
  | .nil => dflt
  | .cons k' v rest => if k' = k then v else rest.getD k dflt

/-- A `List String` as a Python list of strings. -/
def strList : List String → PyList
  | [] => .nil
  | s :: rest => .cons (.str s) (strList rest)

/-- The fixed-shape record that `_serialize_analysis_data` builds for an
`"analysis"` entry holding an object: the six named fields are read with
`getattr(value, field, default)`, substituting type-appropriate defaults
for missing fields. -/
def analysisView (fs : PyDict) : PyVal :=
  .dict (.cons "address" (fs.getD "address" (.str ""))
        (.cons "is_verified" (fs.getD "is_verified" (.bool false))
        (.cons "transaction_count" (fs.getD "transaction_count" (.int 0))
        (.cons "unique_interactors" (fs.getD "unique_interactors" (.int 0))
        (.cons "risk_factors" (fs.getD "risk_factors" (.list .nil))
        (.cons "security_indicators" (fs.getD "security_indicators" (.list .nil))
          .nil))))))

mutual
/-- `VeritasAgent._serialize_analysis_data` (veritas_agent.py, lines 300-325):
dicts are rebuilt key by key — a key `"analysis"` holding an object (a value
with a `__dict__`) is replaced by the fixed six-field `analysisView`, every
other value is normalised recursively; lists are normalised element-wise;
objects become dicts of their recursively normalised `__dict__`; primitives
pass through unchanged. -/
def serialize_analysis_data : PyVal → PyVal
  | .dict kvs => .dict (serializeDictItems kvs)
  | .list xs => .list (serializeListItems xs)
  | .obj fs => .dict (serializeObjItems fs)
  | v => v

/-- Item-wise normalisation of a dict, with the `"analysis"` special case. -/
def serializeDictItems : PyDict → PyDict
  | .nil => .nil
  | .cons k v rest =>
    .cons k
      (if k = "analysis" then
        match v with
        | .obj fs => analysisView fs
        | v' => serialize_analysis_data v'
      else serialize_analysis_data v)
      (serializeDictItems rest)

/-- Item-wise normalisation of an object's `__dict__` (no special case:
the `"analysis"` handling applies only at dict level). -/
def serializeObjItems : PyDict → PyDict
  | .nil => .nil
  | .cons k v rest => .cons k (serialize_analysis_data v) (serializeObjItems rest)

/-- Element-wise normalisation of a list. -/
def serializeListItems : PyList → PyList
  | .nil => .nil
  | .cons v rest => .cons (serialize_analysis_data v) (serializeListItems rest)
end

/-! ### JSON layer

`json.dumps` followed by `json.loads`.  We model JSON documents as trees
(`JVal`) rather than text: Python's `json` preserves object key order,
keeps the int/float distinction (`repr` of a float round-trips exactly),
and raises `TypeError` on non-serializable values (objects, datetimes), so
dump-then-parse is `jsonToPy ∘ pyToJson` with `pyToJson` failing exactly on
non-serializable values. -/

mutual
inductive JVal where
  | jstr : String → JVal
  | jint : ℤ → JVal
  | jfloat : ℚ → JVal
  | jbool : Bool → JVal
  | jnull : JVal
  | jarr : JList → JVal
  | jobj : JDict → JVal

inductive JList where
  | nil : JList
  | cons : JVal → JList → JList

inductive JDict where
  | nil : JDict
  | cons : String → JVal → JDict → JDict
end

mutual
/-- `json.dumps`: succeeds exactly on JSON-serializable values. -/
def pyToJson : PyVal → Option JVal
  | .str s => some (.jstr s)
  | .int n => some (.jint n)
  | .float q => some (.jfloat q)
  | .bool b => some (.jbool b)
  | .pynone => some .jnull
  | .datetime _ => none
  | .obj _ => none
  | .list xs => (pyListToJson xs).map .jarr
  | .dict kvs => (pyDictToJson kvs).map .jobj

def pyListToJson : PyList → Option JList
  | .nil => some .nil
  | .cons v rest =>
    match pyToJson v, pyListToJson rest with
    | some j, some js => some (.cons j js)
    | _, _ => none

def pyDictToJson : PyDict → Option JDict
  | .nil => some .nil
  | .cons k v rest =>
    match pyToJson v, pyDictToJson rest with
    | some j, some js => some (.cons k j js)
    | _, _ => none
end

mutual
/-- `json.loads` of a dumped document, as a total map on JSON trees. -/
def jsonToPy : JVal → PyVal
  | .jstr s => .str s
  | .jint n => .int n
  | .jfloat q => .float q
  | .jbool b => .bool b
  | .jnull => .pynone
  | .jarr js => .list (jsonListToPy js)
  | .jobj js => .dict (jsonDictToPy js)

def jsonListToPy : JList → PyList
  | .nil => .nil
  | .cons j rest => .cons (jsonToPy j) (jsonListToPy rest)

def jsonDictToPy : JDict → PyDict
  | .nil => .nil
  | .cons k j rest => .cons k (jsonToPy j) (jsonDictToPy rest)
end

/-- Serialize to JSON and parse back: `json.loads(json.dumps(v))`, or
`none` when `json.dumps` raises. -/
def jsonRoundTrip (v : PyVal) : Option PyVal := (pyToJson v).map jsonToPy

/-- The JSON image of a Python list of strings. -/
def jstrList : List String → JList
  | [] => .nil
  | s :: rest => .cons (.jstr s) (jstrList rest)

/-! ### On-chain analysis (blockchain_analyzer.py, veritas_agent.py)

The chain-facts provider (`VeritasBlockchainAnalyzer.analyze_contract`) is an
external collaborator crossing a network boundary; per the audit it either
yields a `ContractAnalysis` or raises, so it enters the model as an
`Except String ContractAnalysis` input (the string is `str(e)` of the raised
exception).  The provider is deterministic within one audit: the stubbed
analyzer returns fixed data, so the second `analyze_contract` call inside
`quick_contract_score` sees the same `ContractAnalysis` as the first. -/

/-- The `ContractAnalysis` dataclass (blockchain_analyzer.py, lines 23-36).
`creation_date` is an opaque datetime token.  Counts are Python ints. -/
structure ContractAnalysis where
  address : String
  is_verified : Bool
  creation_date : Option ℕ
  creator_address : String
  transaction_count : ℤ
  unique_interactors : ℤ
  total_value_locked : ℚ
  proxy_pattern : Bool
  ownership_analysis : PyDict
  security_indicators : List String
  risk_factors : List String

/-- The `__dict__` of a `ContractAnalysis` instance, in dataclass field
order. -/
def ContractAnalysis.fields (ca : ContractAnalysis) : PyDict :=
  .cons "address" (.str ca.address)
  (.cons "is_verified" (.bool ca.is_verified)
  (.cons "creation_date"
    (match ca.creation_date with
     | some t => .datetime t
     | Option.none => .pynone)
  (.cons "creator_address" (.str ca.creator_address)
  (.cons "transaction_count" (.int ca.transaction_count)
  (.cons "unique_interactors" (.int ca.unique_interactors)
  (.cons "total_value_locked" (.float ca.total_value_locked)
  (.cons "proxy_pattern" (.bool ca.proxy_pattern)
  (.cons "ownership_analysis" (.dict ca.ownership_analysis)
  (.cons "security_indicators" (.list (strList ca.security_indicators))
  (.cons "risk_factors" (.list (strList ca.risk_factors))
    .nil))))))))))

/-- `quick_contract_score` (blockchain_analyzer.py, lines 345-365), given a
successful contract analysis: base 50, sequential conditional increments,
then `min(100, max(1, score))`. -/
def quick_contract_score (ca : ContractAnalysis) : ℕ :=
  let score := 50
  let score := if ca.is_verified then score + 20 else score
  let score := if 100 < ca.transaction_count then score + 10 else score
  let score := if 50 < ca.unique_interactors then score + 10 else score
  let score := if ca.risk_factors.length = 0 then score + 10 else score
  min 100 (max 1 score)

/-- `VeritasBlockchainAnalyzer._calculate_distribution_score`
(blockchain_analyzer.py, lines 299-316), as a function of the list of
top-holder percentages: a falsy (missing or empty) `top_holders` list gives
the fixed default 50, otherwise the strictly-greater-than step function of
the first (top) holder's percentage. -/
def calculate_distribution_score (top_holders : List ℚ) : ℕ :=
  match top_holders with
  | [] => 50
  | p :: _ =>
    if 50 < p then 20
    else if 30 < p then 40
    else if 20 < p then 60
    else if 10 < p then 80
    else 95

/-- The uniform sub-result dict shape returned by `_analyze_on_chain_data`
and `_analyze_off_chain_data`: keys `score`, `factors`, `risks`, plus
(on-chain only) `analysis` and (success only) `total_value_locked`. -/
structure SubScoreResult where
  score : ℕ
  factors : List String
  risks : List String
  analysisVal : Option PyVal := Option.none
  total_value_locked : Option ℚ := Option.none

/-- The sub-result as the Python dict the agent actually builds, with keys
in insertion order. -/
def SubScoreResult.toPy (r : SubScoreResult) : PyVal :=
  .dict (.cons "score" (.int (r.score : ℤ))
        (.cons "factors" (.list (strList r.factors))
        (.cons "risks" (.list (strList r.risks))
        (match r.analysisVal, r.total_value_locked with
         | some a, some tvl =>
             .cons "analysis" a (.cons "total_value_locked" (.float tvl) .nil)
         | some a, Option.none => .cons "analysis" a .nil
         | Option.none, _ => .nil))))

/-- `VeritasAgent._analyze_on_chain_data` (veritas_agent.py, lines 137-194):
no address → the fixed insufficient-input result (score 30); provider
raises → the caught degraded result (score 20, `"Analysis failed: <cause>"`);
otherwise the quick score plus factor lists assembled from the analysis. -/
def analyze_on_chain_data (address : Option String)
    (facts : Except String ContractAnalysis) : SubScoreResult :=
  match address with
  | Option.none =>
    { score := 30, factors := [], risks := ["No contract address provided"],
      analysisVal := some (.str "Cannot perform on-chain analysis without contract address") }
  | some _ =>
    match facts with
    | .error e =>
      { score := 20, factors := [], risks := ["Analysis failed: " ++ e],
        analysisVal := some (.str "Error during on-chain analysis") }
    | .ok ca =>
      let factors :=
        (if ca.is_verified then ["Contract source code verified"] else []) ++
        (if 100 < ca.transaction_count then
          ["Active usage (" ++ toString ca.transaction_count ++ " transactions)"] else []) ++
        (if 50 < ca.unique_interactors then
          ["Diverse user base (" ++ toString ca.unique_interactors ++ " unique users)"] else []) ++
        ca.security_indicators
      let risks :=
        ca.risk_factors ++
        (if ca.transaction_count < 10 then ["Very low transaction activity"] else []) ++
        (if ca.is_verified then [] else ["Contract source code not verified"])
      { score := quick_contract_score ca, factors := factors, risks := risks,
        analysisVal := some (.obj ca.fields),
        total_value_locked := some ca.total_value_locked }

/-! ### Off-chain analysis -/

/-- The off-chain observations a `quick_project_scan` can carry (from
web_scraper.py: team verification counts, sentiment mention counts, red
flags).  `_analyze_off_chain_data` receives them through
`project_data.off_chain_data`; a failed scan leaves them absent (`none`). -/
structure OffchainFacts where
  verified_members : ℕ
  positive_mentions : ℕ
  negative_mentions : ℕ
  red_flags : List String

/-- `VeritasAgent._analyze_off_chain_data` (veritas_agent.py, lines
196-212): the current implementation is a placeholder that ignores the
collected off-chain data entirely and returns the fixed result. -/
def analyze_off_chain_data (_facts : Option OffchainFacts) : SubScoreResult :=
  { score := 75,
    factors := ["Positive media coverage", "Active community"],
    risks := ["Limited team information"] }

/-! ### Judgment oracle adapter -/

/-- The dict `_ai_score_analysis` returns: any JSON object, whose relevant
fields may each be absent (the aggregator reads `confidence` with
`dict.get` and a fallback). -/
structure AIDict where
  confidence : Option ℚ := Option.none
  key_insights : Option (List String) := Option.none
  risk_level : Option String := Option.none
  recommendation : Option String := Option.none

/-- The outcome of the judgment-oracle call as `_ai_score_analysis` sees
it: the API call raises; or it returns empty content (`None`/`""`, which
makes the adapter raise `ValueError` into its own handler); or content that
`json.loads` rejects; or content parsed to a JSON object. -/
inductive OracleReply where
  | raises : String → OracleReply
  | empty : OracleReply
  | malformed : String → OracleReply
  | parsed : AIDict → OracleReply

/-- The fixed degraded judgment built in the `except` handler of
`_ai_score_analysis` (veritas_agent.py, lines 291-298). -/
def degraded_judgment : AIDict :=
  { confidence := some (1/2),
    key_insights := some ["AI analysis incomplete due to error"],
    risk_level := some "medium",
    recommendation := some "Manual review recommended" }

/-- `VeritasAgent._ai_score_analysis` (veritas_agent.py, lines 255-298):
every failure mode falls into the single `except` handler and yields the
fixed degraded judgment; a reply parsed to a JSON object is returned as-is,
unvalidated. -/
def ai_score_analysis : OracleReply → AIDict
  | .raises _ => degraded_judgment
  | .empty => degraded_judgment
  | .malformed _ => degraded_judgment
  | .parsed d => d

/-! ### The aggregator -/

/-- `ProjectData` as far as the aggregator reads it (name and optional
address; the raw on-chain and off-chain payloads enter through the
analysis results). -/
structure ProjectData where
  name : String
  address : Option String

/-- The final `VeritasScore` record (veritas_agent.py, lines 34-44).
`analysis_timestamp` is wall-clock time, outside the model. -/
structure VeritasScore where
  overall_score : ℕ
  confidence_level : ℚ
  on_chain_score : ℕ
  off_chain_score : ℕ
  risk_factors : List String
  positive_factors : List String
  evidence : PyVal

/-- `VeritasAgent._generate_veritas_score` (veritas_agent.py, lines
214-253): builds the evidence document through the normalizer, obtains the
oracle judgment, computes `int(on * 0.6 + off * 0.4)` in binary64
arithmetic, clamps with `max(1, min(100, ·))`, and assembles the final
record in one step. -/
def generate_veritas_score (pd : ProjectData) (on_chain off_chain : SubScoreResult)
    (reply : OracleReply) : VeritasScore :=
  let evidence : PyVal :=
    .dict (.cons "on_chain" (serialize_analysis_data on_chain.toPy)
          (.cons "off_chain" (serialize_analysis_data off_chain.toPy)
          (.cons "project_data"
            (.dict (.cons "name" (.str pd.name)
                   (.cons "address"
                     (match pd.address with
                      | some a => .str a
                      | Option.none => .pynone) .nil))) .nil)))
  let ai := ai_score_analysis reply
  let overall := dfloor (weighted_sum_double on_chain.score off_chain.score)
  let overall := max 1 (min 100 overall)
  { overall_score := overall,
    confidence_level := ai.confidence.getD (7/10),
    on_chain_score := on_chain.score,
    off_chain_score := off_chain.score,
    risk_factors := on_chain.risks ++ off_chain.risks,
    positive_factors := on_chain.factors ++ off_chain.factors,
    evidence := evidence }

/-- The address test in `_collect_project_data` (veritas_agent.py, line
106): `len(identifier) == 42 and identifier.startswith('0x')` — the
`startswith` test is written here as equality of the first two characters
with `"0x"`, which is what `startswith` means for a two-character prefix. -/
def is_address (identifier : String) : Bool :=
  identifier.length == 42 && identifier.take 2 == "0x"

/-- `VeritasAgent._collect_project_data` (veritas_agent.py, lines 101-135),
restricted to what the aggregator reads: the name and the resolved
address. -/
def collect_project_data (identifier : String) : ProjectData :=
  if is_address identifier then
    { name := "Contract_" ++ identifier.take 8, address := some identifier }
  else
    { name := identifier, address := Option.none }

/-- `VeritasAgent.audit_project` (veritas_agent.py, lines 65-99): the
linear pipeline, parameterised by the outcomes of the three boundary calls
(chain-facts provider, off-chain scan, judgment oracle). -/
def audit_project (identifier : String)
    (chain_facts : Except String ContractAnalysis)
    (offchain_facts : Option OffchainFacts)
    (reply : OracleReply) : VeritasScore :=
  let pd := collect_project_data identifier
  let on_chain := analyze_on_chain_data pd.address chain_facts
  let off_chain := analyze_off_chain_data offchain_facts
  generate_veritas_score pd on_chain off_chain reply

/-! ## Helper lemmas -/

theorem serializeListItems_strList (l : List String) :
    serializeListItems (strList l) = strList l := by
  induction l with
  | nil => rfl
  | cons s rest ih => simp [strList, serializeListItems, serialize_analysis_data, ih]

theorem pyListToJson_strList (l : List String) :
    pyListToJson (strList l) = some (jstrList l) := by
  induction l with
  | nil => rfl
  | cons s rest ih => simp [strList, jstrList, pyListToJson, pyToJson, ih]

theorem jsonListToPy_jstrList (l : List String) :
    jsonListToPy (jstrList l) = strList l := by
  induction l with
  | nil => rfl
  | cons s rest ih => simp [strList, jstrList, jsonListToPy, jsonToPy, ih]

theorem jsonRoundTrip_strList (l : List String) :
    jsonRoundTrip (.list (strList l)) = some (.list (strList l)) := by
  simp [jsonRoundTrip, pyToJson, pyListToJson_strList, jsonToPy, jsonListToPy_jstrList]

theorem jsonRoundTrip_dict_nil : jsonRoundTrip (.dict .nil) = some (.dict .nil) := rfl

/-- A dict round-trips entry by entry. -/
theorem jsonRoundTrip_dict_cons (k : String) (v : PyVal) (rest : PyDict)
    (hv : jsonRoundTrip v = some v)
    (hrest : jsonRoundTrip (.dict rest) = some (.dict rest)) :
    jsonRoundTrip (.dict (.cons k v rest)) = some (.dict (.cons k v rest)) := by
  simp only [jsonRoundTrip, pyToJson] at hv hrest ⊢
  cases hj : pyToJson v with
  | none => rw [hj] at hv; simp at hv
  | some j =>
    rw [hj] at hv
    simp only [Option.map_some', Option.some.injEq] at hv
    cases hr : pyDictToJson rest with
    | none => rw [hr] at hrest; simp at hrest
    | some js =>
      rw [hr] at hrest
      simp only [Option.map_some', Option.some.injEq, jsonToPy, PyVal.dict.injEq] at hrest
      simp [pyDictToJson, hj, hr, jsonToPy, jsonDictToPy, hv, hrest]

/-- `analysisView` on a `ContractAnalysis.__dict__` reads the six
advertised fields and drops the rest (in particular the non-serializable
`creation_date` and the free-form `ownership_analysis`). -/
theorem analysisView_contract_fields (ca : ContractAnalysis) :
    analysisView ca.fields
      = .dict (.cons "address" (.str ca.address)
          (.cons "is_verified" (.bool ca.is_verified)
          (.cons "transaction_count" (.int ca.transaction_count)
          (.cons "unique_interactors" (.int ca.unique_interactors)
          (.cons "risk_factors" (.list (strList ca.risk_factors))
          (.cons "security_indicators" (.list (strList ca.security_indicators))
            .nil)))))) := rfl

/-- The normalized form of a successful on-chain sub-result dict. -/
theorem serialize_toPy_success (sc : ℕ) (F R : List String) (ca : ContractAnalysis) (q : ℚ) :
    serialize_analysis_data
        (SubScoreResult.toPy ⟨sc, F, R, some (.obj ca.fields), some q⟩)
      = .dict (.cons "score" (.int (sc : ℤ))
          (.cons "factors" (.list (strList F))
          (.cons "risks" (.list (strList R))
          (.cons "analysis" (analysisView ca.fields)
          (.cons "total_value_locked" (.float q) .nil))))) := by
  simp [SubScoreResult.toPy, serialize_analysis_data, serializeDictItems,
    serializeListItems_strList]

/-- The normalized successful on-chain sub-result round-trips through
JSON. -/
theorem jsonRoundTrip_toPy_success (sc : ℕ) (F R : List String)
    (ca : ContractAnalysis) (q : ℚ) :
    jsonRoundTrip (serialize_analysis_data
        (SubScoreResult.toPy ⟨sc, F, R, some (.obj ca.fields), some q⟩))
      = some (serialize_analysis_data
        (SubScoreResult.toPy ⟨sc, F, R, some (.obj ca.fields), some q⟩)) := by
  rw [serialize_toPy_success, analysisView_contract_fields]
  refine jsonRoundTrip_dict_cons _ _ _ rfl ?_
  refine jsonRoundTrip_dict_cons _ _ _ (jsonRoundTrip_strList F) ?_
  refine jsonRoundTrip_dict_cons _ _ _ (jsonRoundTrip_strList R) ?_
  refine jsonRoundTrip_dict_cons _ _ _ ?_ ?_
  · refine jsonRoundTrip_dict_cons _ _ _ rfl ?_
    refine jsonRoundTrip_dict_cons _ _ _ rfl ?_
    refine jsonRoundTrip_dict_cons _ _ _ rfl ?_
    refine jsonRoundTrip_dict_cons _ _ _ rfl ?_
    refine jsonRoundTrip_dict_cons _ _ _ (jsonRoundTrip_strList ca.risk_factors) ?_
    exact jsonRoundTrip_dict_cons _ _ _
      (jsonRoundTrip_strList ca.security_indicators) jsonRoundTrip_dict_nil
  · exact jsonRoundTrip_dict_cons _ _ _ rfl jsonRoundTrip_dict_nil

/-- The evidence document round-trips whenever its two normalized
sub-result entries do (name, address and the off-chain constant always
round-trip). -/
theorem jsonRoundTrip_evidence (name : String) (addrOpt : Option String)
    (onr offr : SubScoreResult) (reply : OracleReply)
    (hon : jsonRoundTrip (serialize_analysis_data onr.toPy)
      = some (serialize_analysis_data onr.toPy))
    (hoff : jsonRoundTrip (serialize_analysis_data offr.toPy)
      = some (serialize_analysis_data offr.toPy)) :
    jsonRoundTrip (generate_veritas_score ⟨name, addrOpt⟩ onr offr reply).evidence
      = some (generate_veritas_score ⟨name, addrOpt⟩ onr offr reply).evidence := by
  refine jsonRoundTrip_dict_cons _ _ _ hon ?_
  refine jsonRoundTrip_dict_cons _ _ _ hoff ?_
  refine jsonRoundTrip_dict_cons _ _ _ ?_ jsonRoundTrip_dict_nil
  cases addrOpt <;> rfl

/-! ## Claims -/

/-- **C9.** The evidence normalizer is total (it is a total Lean function
over every modeled Python value shape), replaces missing named fields of
an `"analysis"` object by the type-appropriate defaults (empty string,
false, 0, empty list), and every evidence document an audit produces —
whatever the identifier, the provider outcome, the off-chain scan and the
oracle reply — serializes to JSON and parses back to a structurally equal
value. -/
theorem C9_normalizer_roundtrip :
    (∀ fs : PyDict,
      serialize_analysis_data (.dict (.cons "analysis" (.obj fs) .nil))
        = .dict (.cons "analysis" (analysisView fs) .nil))
    ∧ analysisView .nil
        = .dict (.cons "address" (.str "")
            (.cons "is_verified" (.bool false)
            (.cons "transaction_count" (.int 0)
            (.cons "unique_interactors" (.int 0)
            (.cons "risk_factors" (.list .nil)
            (.cons "security_indicators" (.list .nil) .nil))))))
    ∧ (∀ (identifier : String) (facts : Except String ContractAnalysis)
        (off : Option OffchainFacts) (reply : OracleReply),
        jsonRoundTrip (audit_project identifier facts off reply).evidence
          = some (audit_project identifier facts off reply).evidence) := by
  refine ⟨fun fs => rfl, rfl, ?_⟩
  intro identifier facts off reply
  cases hid : is_address identifier with
  | true =>
    simp only [audit_project, collect_project_data, hid, if_true]
    cases facts with
    | error e => exact jsonRoundTrip_evidence _ _ _ _ _ rfl rfl
    | ok ca =>
      refine jsonRoundTrip_evidence _ _ _ _ _ ?_ rfl
      exact jsonRoundTrip_toPy_success (quick_contract_score ca) _ _ ca _
  | false =>
    simp only [audit_project, collect_project_data, hid, Bool.false_eq_true, if_false]
    exact jsonRoundTrip_evidence _ _ _ _ _ rfl rfl

/-- **C1** counterexample: the claim says the COMBINING step rounds the
weighted sum, but the code truncates it (`int(...)`).  At on-chain
sub-score 1 and off-chain sub-score 5 the weighted sum is 2.6: the
pipeline produces 2, while rounding (then clamping) would produce 3. -/
theorem C1_round_counterexample :
    (generate_veritas_score ⟨"Sample", Option.none⟩
        { score := 1, factors := [], risks := [] }
        { score := 5, factors := [], risks := [] } (.parsed {})).overall_score = 2
    ∧ max 1 (min 100 (round ((1 : ℚ) * 0.6 + (5 : ℚ) * 0.4))) = 3 := by
  refine ⟨by decide, ?_⟩
  rw [show ((1 : ℚ) * 0.6 + (5 : ℚ) * 0.4) = 13 / 5 by norm_num, round_eq,
    show (13 : ℚ) / 5 + 1 / 2 = 31 / 10 by norm_num]
  rw [show ⌊(31 : ℚ) / 10⌋ = 3 from by rw [Int.floor_eq_iff] <;> norm_num]
  norm_num

/-- **C1** (amended).  The COMBINING step produces
`overall_score = int(s1 * 0.6 + s2 * 0.4)` — the binary64 weighted sum
truncated toward zero, not rounded — clamped into [1,100]; in particular
on-chain 100 with off-chain 75 yields 90 (as the claim's example says),
while on-chain 1 with off-chain 5 yields 2, not `round(2.6) = 3`.  At the
off-chain sub-score the current pipeline can actually produce (the
placeholder constant 75), the binary64 truncation agrees with the exact
mathematical floor `⌊0.6 * s1 + 0.4 * 75⌋` for every on-chain sub-score
`s1 ≤ 100`. -/
theorem C1_combining_truncates :
    (∀ (pd : ProjectData) (onr offr : SubScoreResult) (reply : OracleReply),
      (generate_veritas_score pd onr offr reply).overall_score
        = max 1 (min 100 (dfloor (weighted_sum_double onr.score offr.score)))
      ∧ 1 ≤ (generate_veritas_score pd onr offr reply).overall_score
      ∧ (generate_veritas_score pd onr offr reply).overall_score ≤ 100)
    ∧ (∀ (pd : ProjectData) (onr offr : SubScoreResult) (reply : OracleReply),
        onr.score = 100 → offr.score = 75 →
        (generate_veritas_score pd onr offr reply).overall_score = 90)
    ∧ (∀ (pd : ProjectData) (onr offr : SubScoreResult) (reply : OracleReply),
        onr.score = 1 → offr.score = 5 →
        (generate_veritas_score pd onr offr reply).overall_score = 2)
    ∧ (∀ s1 : ℕ, s1 < 101 →
        dfloor (weighted_sum_double s1 75) = (6 * s1 + 300) / 10) := by
  refine ⟨fun pd onr offr reply => ⟨rfl, ?_, ?_⟩, ?_, ?_, ?_⟩
  · exact le_max_left 1 _
  · exact max_le (by norm_num) (min_le_left 100 _)
  · intro pd onr offr reply h1 h2
    show max 1 (min 100 (dfloor (weighted_sum_double onr.score offr.score))) = 90
    rw [h1, h2]; decide
  · intro pd onr offr reply h1 h2
    show max 1 (min 100 (dfloor (weighted_sum_double onr.score offr.score))) = 2
    rw [h1, h2]; decide
  · decide

/-- **C1** witness: the amended combining rule instantiated at the
claim's own example, on-chain 100 and off-chain 75, with the score
hypotheses discharged by `rfl`. -/
theorem C1_combining_truncates_witness :
    (generate_veritas_score ⟨"Sample", Option.none⟩
        { score := 100, factors := [], risks := [] }
        { score := 75, factors := [], risks := [] } (.parsed {})).overall_score = 90 :=
  C1_combining_truncates.2.1 ⟨"Sample", Option.none⟩
    { score := 100, factors := [], risks := [] }
    { score := 75, factors := [], risks := [] } (.parsed {}) rfl rfl

/-- **C4** counterexample: a reply that parses to a JSON object but lacks
every Judgment field — malformed data relative to the Judgment shape — is
passed through unvalidated, so the final `confidence_level` is the
aggregator's `dict.get` fallback 0.7, not the degraded default 0.5, and
the internal `risk_level` is absent, not `"medium"` (the audit does still
complete). -/
theorem C4_malformed_reply_counterexample :
    (audit_project "Sample DeFi Project" (.error "ConnectionError") Option.none
        (.parsed {})).confidence_level = 7 / 10
    ∧ ¬ (audit_project "Sample DeFi Project" (.error "ConnectionError") Option.none
        (.parsed {})).confidence_level = 1 / 2
    ∧ (ai_score_analysis (.parsed {})).risk_level = Option.none := by
  refine ⟨rfl, ?_, rfl⟩
  rw [show (audit_project "Sample DeFi Project" (.error "ConnectionError") Option.none
        (.parsed {})).confidence_level = 7 / 10 from rfl]
  norm_num

/-- **C4** (amended).  If the judgment-oracle call raises, returns empty
content, or returns content that fails JSON parsing, the adapter never
raises past its boundary and substitutes the fixed degraded default —
`confidence = 0.5`, internal `risk_level = "medium"` — and the audit
completes with `confidence_level` exactly 0.5.  A reply that parses to a
JSON object, however, is passed through unvalidated: if it is missing the
`confidence` field, the aggregator's own fallback 0.7 becomes the final
`confidence_level` instead of the degraded 0.5.  (The audit function is
total, so every such audit returns a full `VeritasScore`.) -/
theorem C4_oracle_failure_defaults :
    (∀ msg, ai_score_analysis (.raises msg) = degraded_judgment)
    ∧ ai_score_analysis .empty = degraded_judgment
    ∧ (∀ raw, ai_score_analysis (.malformed raw) = degraded_judgment)
    ∧ degraded_judgment.confidence = some (1 / 2)
    ∧ degraded_judgment.risk_level = some "medium"
    ∧ (∀ identifier facts off msg,
        (audit_project identifier facts off (.raises msg)).confidence_level = 1 / 2)
    ∧ (∀ identifier facts off,
        (audit_project identifier facts off .empty).confidence_level = 1 / 2)
    ∧ (∀ identifier facts off raw,
        (audit_project identifier facts off (.malformed raw)).confidence_level = 1 / 2)
    ∧ (∀ d : AIDict, d.confidence = Option.none →
        ∀ identifier facts off,
        (audit_project identifier facts off (.parsed d)).confidence_level = 7 / 10) := by
  refine ⟨fun _ => rfl, rfl, fun _ => rfl, rfl, rfl,
    fun _ _ _ _ => rfl, fun _ _ _ => rfl, fun _ _ _ _ => rfl, ?_⟩
  intro d h identifier facts off
  show (ai_score_analysis (.parsed d)).confidence.getD (7 / 10) = 7 / 10
  rw [show ai_score_analysis (.parsed d) = d from rfl, h]
  rfl

/-- **C4** witness: the pass-through branch instantiated at a parsed reply
that carries a `risk_level` but no `confidence`, discharging the
missing-confidence hypothesis by `rfl`. -/
theorem C4_oracle_failure_defaults_witness :
    (audit_project "Uniswap" (.error "timeout") Option.none
        (.parsed { risk_level := some "low" })).confidence_level = 7 / 10 :=
  C4_oracle_failure_defaults.2.2.2.2.2.2.2.2 { risk_level := some "low" } rfl
    "Uniswap" (.error "timeout") Option.none

/-- **C10.** An identifier is classified as a contract address exactly when
it has length 42 and begins with `"0x"` (no further validation); every
other identifier — ENS names, project names — gets no address, so its
on-chain analysis takes the no-address path and the audit's on-chain
sub-score is 30. -/
theorem C10_address_classification :
    (∀ s : String, is_address s = true ↔ (s.length = 42 ∧ s.take 2 = "0x"))
    ∧ (∀ s : String, is_address s = false →
        ∀ facts off reply, (audit_project s facts off reply).on_chain_score = 30)
    ∧ is_address "vitalik.eth" = false
    ∧ is_address "Uniswap" = false
    ∧ is_address "0x7a250d5630B4cF539739dF2C5dAcb4c659F2488D" = true := by
  refine ⟨?_, ?_, by decide, by decide, by decide⟩
  · intro s
    simp [is_address]
  · intro s h facts off reply
    simp only [audit_project, collect_project_data, h, Bool.false_eq_true, if_false]
    rfl

/-- **C10** witness: a project name is not an address and its audit's
on-chain sub-score is 30, with the classification hypothesis discharged
by `decide`. -/
theorem C10_address_classification_witness :
    (audit_project "Uniswap" (.error "unreachable") Option.none
      (.parsed {})).on_chain_score = 30 :=
  C10_address_classification.2.1 "Uniswap" (by decide)
    (.error "unreachable") Option.none (.parsed {})

/-- **C2.** For every contract analysis the facts provider can deliver, the
on-chain score equals a base of 50 plus independent, order-insensitive
additive bonuses — +20 if verified, +10 if transaction count > 100, +10 if
unique interactors > 50, +10 if the risk-factor list is empty — clamped
into [1,100] (the bonuses are stated here in the reverse of the order the
code applies them, which exhibits order-insensitivity); and the concrete
facts `is_verified = true, transaction_count = 1500, unique_interactors =
450, risk_factors = []` give on-chain score 100 with no risk factors
added. -/
theorem C2_on_chain_additive_bonuses :
    (∀ (addr : String) (ca : ContractAnalysis),
      (analyze_on_chain_data (some addr) (.ok ca)).score
        = min 100 (max 1 (50
            + (if ca.risk_factors = [] then 10 else 0)
            + (if 50 < ca.unique_interactors then 10 else 0)
            + (if 100 < ca.transaction_count then 10 else 0)
            + (if ca.is_verified then 20 else 0)))
      ∧ 1 ≤ (analyze_on_chain_data (some addr) (.ok ca)).score
      ∧ (analyze_on_chain_data (some addr) (.ok ca)).score ≤ 100)
    ∧ (∀ (addr : String) (ca : ContractAnalysis),
        ca.is_verified = true → ca.transaction_count = 1500 →
        ca.unique_interactors = 450 → ca.risk_factors = [] →
        (analyze_on_chain_data (some addr) (.ok ca)).score = 100
        ∧ (analyze_on_chain_data (some addr) (.ok ca)).risks = []) := by
  constructor
  · intro addr ca
    have hs : (analyze_on_chain_data (some addr) (.ok ca)).score = quick_contract_score ca := rfl
    rw [hs]
    unfold quick_contract_score
    simp only [List.length_eq_zero]
    refine ⟨?_, ?_, ?_⟩ <;> split_ifs <;> norm_num
  · intro addr ca hv ht hu hr
    constructor
    · have hs : (analyze_on_chain_data (some addr) (.ok ca)).score = quick_contract_score ca := rfl
      rw [hs]
      unfold quick_contract_score
      rw [hv, ht, hu, hr]
      norm_num
    · show ca.risk_factors ++ _ ++ _ = _
      rw [hv, ht, hr]
      norm_num

/-- **C2** witness: the bonus decomposition and the end-to-end example,
instantiated at a concrete contract analysis. -/
theorem C2_on_chain_additive_bonuses_witness :
    (analyze_on_chain_data (some "0x7a250d5630B4cF539739dF2C5dAcb4c659F2488D")
      (.ok ⟨"0x7a250d5630B4cF539739dF2C5dAcb4c659F2488D", true, Option.none, "",
            1500, 450, 2500000, false, .nil, [], []⟩)).score = 100
    ∧ (analyze_on_chain_data (some "0x7a250d5630B4cF539739dF2C5dAcb4c659F2488D")
      (.ok ⟨"0x7a250d5630B4cF539739dF2C5dAcb4c659F2488D", true, Option.none, "",
            1500, 450, 2500000, false, .nil, [], []⟩)).risks = [] :=
  C2_on_chain_additive_bonuses.2 "0x7a250d5630B4cF539739dF2C5dAcb4c659F2488D"
    ⟨"0x7a250d5630B4cF539739dF2C5dAcb4c659F2488D", true, Option.none, "",
      1500, 450, 2500000, false, .nil, [], []⟩ rfl rfl rfl rfl

/-- **C3** counterexample: the claim asserts the boundary `p = 10` gives
80, but the code's strictly-greater-than chain (`p > 10` is false at
`p = 10`) falls through to the final branch and gives 95. -/
theorem C3_distribution_counterexample :
    calculate_distribution_score [(10 : ℚ)] = 95
    ∧ ¬ calculate_distribution_score [(10 : ℚ)] = 80 := by
  norm_num [calculate_distribution_score]

/-- **C3** (amended).  The distribution score is a pure step function of
the top holder's percentage `p`, non-increasing in `p`, with the
strictly-greater-than boundary rule — so the boundary `p = 50` gives 40
and the boundary `p = 10` gives 95, not 80 — and a fixed default of 50
when holder data is absent. -/
theorem C3_distribution_step_function :
    (∀ (p : ℚ) (rest : List ℚ), 50 < p → calculate_distribution_score (p :: rest) = 20)
    ∧ (∀ (p : ℚ) (rest : List ℚ), 30 < p → p ≤ 50 → calculate_distribution_score (p :: rest) = 40)
    ∧ (∀ (p : ℚ) (rest : List ℚ), 20 < p → p ≤ 30 → calculate_distribution_score (p :: rest) = 60)
    ∧ (∀ (p : ℚ) (rest : List ℚ), 10 < p → p ≤ 20 → calculate_distribution_score (p :: rest) = 80)
    ∧ (∀ (p : ℚ) (rest : List ℚ), p ≤ 10 → calculate_distribution_score (p :: rest) = 95)
    ∧ calculate_distribution_score [] = 50
    ∧ calculate_distribution_score [50] = 40
    ∧ calculate_distribution_score [10] = 95
    ∧ calculate_distribution_score [60] = 20
    ∧ calculate_distribution_score [45] = 40
    ∧ calculate_distribution_score [25] = 60
    ∧ calculate_distribution_score [15] = 80
    ∧ calculate_distribution_score [5] = 95
    ∧ (∀ (p q : ℚ) (rest rest' : List ℚ), p ≤ q →
        calculate_distribution_score (q :: rest') ≤ calculate_distribution_score (p :: rest)) := by
  refine ⟨?_, ?_, ?_, ?_, ?_, rfl, ?_, ?_, ?_, ?_, ?_, ?_, ?_, ?_⟩
  · intro p rest h; simp only [calculate_distribution_score]; split_ifs <;> first | rfl | linarith
  · intro p rest h h'; simp only [calculate_distribution_score]; split_ifs <;> first | rfl | linarith
  · intro p rest h h'; simp only [calculate_distribution_score]; split_ifs <;> first | rfl | linarith
  · intro p rest h h'; simp only [calculate_distribution_score]; split_ifs <;> first | rfl | linarith
  · intro p rest h; simp only [calculate_distribution_score]; split_ifs <;> first | rfl | linarith
  · norm_num [calculate_distribution_score]
  · norm_num [calculate_distribution_score]
  · norm_num [calculate_distribution_score]
  · norm_num [calculate_distribution_score]
  · norm_num [calculate_distribution_score]
  · norm_num [calculate_distribution_score]
  · norm_num [calculate_distribution_score]
  · intro p q rest rest' hpq
    simp only [calculate_distribution_score]
    split_ifs <;> linarith

/-- **C3** witness: the step function at concrete inputs, discharging the
interval hypotheses there. -/
theorem C3_distribution_step_function_witness :
    calculate_distribution_score [(60 : ℚ)] = 20 ∧ calculate_distribution_score [(45 : ℚ)] = 40 :=
  ⟨C3_distribution_step_function.1 60 [] (by norm_num),
   C3_distribution_step_function.2.1 45 [] (by norm_num) (by norm_num)⟩

/-- **C5.** An audit whose identifier resolves to no contract address gets
the fixed insufficient-input on-chain result — score exactly 30, no
positive factors, risk list exactly `["No contract address provided"]` —
as a normal return value (the function is total), whatever the facts
provider would have said. -/
theorem C5_no_address_path :
    ∀ facts : Except String ContractAnalysis,
      (analyze_on_chain_data Option.none facts).score = 30
      ∧ (analyze_on_chain_data Option.none facts).factors = []
      ∧ (analyze_on_chain_data Option.none facts).risks = ["No contract address provided"] :=
  fun _ => ⟨rfl, rfl, rfl⟩

/-- **C6.** When the chain-facts provider raises, the on-chain analysis
catches the failure and returns score exactly 20, no positive factors, and
risk list exactly `["Analysis failed: <cause>"]`; the audit still runs to
completion (here: through a 42-character `0x` identifier, so the failing
provider is really reached) and carries the degraded sub-score. -/
theorem C6_provider_failure_path :
    ∀ (addr msg : String) (off : Option OffchainFacts) (reply : OracleReply),
      (analyze_on_chain_data (some addr) (.error msg)).score = 20
      ∧ (analyze_on_chain_data (some addr) (.error msg)).factors = []
      ∧ (analyze_on_chain_data (some addr) (.error msg)).risks = ["Analysis failed: " ++ msg]
      ∧ (audit_project "0x1234567890123456789012345678901234567890"
          (.error msg) off reply).on_chain_score = 20 :=
  fun _ _ _ _ => ⟨rfl, rfl, rfl, rfl⟩

/-- **C7.** The off-chain scorer always returns a score in [1,100]; the
score is non-decreasing in verified-team presence, in positive-sentiment
dominance, and under removal of red flags; and missing or failed provider
output yields the same fixed result rather than an error.  (The current
implementation is the documented placeholder, constant 75, which satisfies
all of these non-strict conditions.) -/
theorem C7_off_chain_contract :
    (∀ f : Option OffchainFacts,
      1 ≤ (analyze_off_chain_data f).score ∧ (analyze_off_chain_data f).score ≤ 100)
    ∧ (∀ (f : OffchainFacts) (k : ℕ),
        (analyze_off_chain_data (some { f with verified_members := 0 })).score
          ≤ (analyze_off_chain_data (some { f with verified_members := k })).score)
    ∧ (∀ (f : OffchainFacts) (p1 p2 n : ℕ), p1 ≤ p2 →
        (analyze_off_chain_data
            (some { f with positive_mentions := p1, negative_mentions := n })).score
          ≤ (analyze_off_chain_data
            (some { f with positive_mentions := p2, negative_mentions := n })).score)
    ∧ (∀ (f : OffchainFacts) (flags : List String),
        (analyze_off_chain_data (some { f with red_flags := flags })).score
          ≤ (analyze_off_chain_data (some { f with red_flags := [] })).score)
    ∧ (∀ f : Option OffchainFacts, analyze_off_chain_data f = analyze_off_chain_data Option.none) :=
  ⟨fun _ => ⟨by norm_num [analyze_off_chain_data], by norm_num [analyze_off_chain_data]⟩,
   fun _ _ => le_refl _,
   fun _ _ _ _ _ => le_refl _,
   fun _ _ => le_refl _,
   fun _ => rfl⟩

/-- **C7** witness: the sentiment-dominance monotonicity at a concrete
pair of mention counts. -/
theorem C7_off_chain_contract_witness :
    (analyze_off_chain_data (some ⟨2, 30, 10, []⟩)).score
      ≤ (analyze_off_chain_data (some ⟨2, 60, 10, []⟩)).score :=
  C7_off_chain_contract.2.2.1 ⟨2, 0, 0, []⟩ 30 60 10 (by norm_num)

/-- **C8.** The final record's risk list is the on-chain risks concatenated
with the off-chain risks, order preserved, duplicates preserved verbatim
(occurrence counts add), and the positive-factor list follows the same
rule. -/
theorem C8_factor_concatenation :
    ∀ (pd : ProjectData) (onr offr : SubScoreResult) (reply : OracleReply),
      (generate_veritas_score pd onr offr reply).risk_factors = onr.risks ++ offr.risks
      ∧ (generate_veritas_score pd onr offr reply).positive_factors
          = onr.factors ++ offr.factors
      ∧ (∀ s : String,
          (generate_veritas_score pd onr offr reply).risk_factors.count s
            = onr.risks.count s + offr.risks.count s)
      ∧ (∀ s : String,
          (generate_veritas_score pd onr offr reply).positive_factors.count s
            = onr.factors.count s + offr.factors.count s) := by
  intro pd onr offr reply
  refine ⟨rfl, rfl, fun s => ?_, fun s => ?_⟩ <;>
    simp [generate_veritas_score, List.count_append]

end VeritasChain
